import Mathlib

/-!
Verification development for the ebop-maven solver wrapper (jktebop module)
and training-record codec (deb_example module).

The Python modules `ebop_maven/libs/jktebop.py` and `ebop_maven/deb_example.py`
are not part of the source tree available here; only their unit tests are.
Their behaviour is therefore modelled from the specification, with every point
that the unit tests pin down taken from the tests (the tests are repository
code and take precedence where they decide a behaviour).  Numeric values are
modelled as exact rationals; Python dicts are modelled as association lists in
insertion order, and mutation is modelled by explicit state passing: a call
that may mutate its argument returns the pair (caller mapping after the call,
returned mapping).
-/

deriving instance DecidableEq for Except

namespace EbopMaven

/-- Modelled from the spec: a parameter value is a scalar, numeric or a short
enumerated string such as a limb-darkening law name (spec section 3). -/
inductive Value : Type where
  | num (q : ℚ)
  | str (s : String)
deriving DecidableEq, Repr

/-- Modelled from the spec: a ParameterSet is a mapping from parameter name to
scalar value (spec section 3); modelled as an association list in insertion
order, matching Python dict semantics. -/
abbrev ParameterSet : Type := List (String × Value)

/-- Association-list lookup by key (Python mapping read `d[k]` / `d.get(k)`). -/
def aget {α : Type} : List (String × α) → String → Option α
  | [], _ => none
  | (k, v) :: rest, key => if k = key then some v else aget rest key

/-- Association-list update `d[k] = v`: replaces the first binding of the key
keeping its position, or appends a new binding, matching Python dict
assignment semantics. -/
def aset {α : Type} : List (String × α) → String → α → List (String × α)
  | [], key, v => [(key, v)]
  | (k, w) :: rest, key, v =>
      if k = key then (k, v) :: rest else (k, w) :: aset rest key v

/-- Modelled from the spec: the error taxonomy of spec section 7 as surfaced by
the Python exceptions the tests assert (TypeError, KeyError, ValueError,
CalledProcessError, FileNotFoundError, and decode format errors). -/
inductive PyError : Type where
  | typeError (msg : String)
  | keyError (keys : List String)
  | valueError (param : String) (value : ℚ)
  | calledProcessError (returncode : Int)
  | fileNotFoundError (path : String)
  | formatError (msg : String)
deriving DecidableEq, Repr

/-- Modelled from the spec: a Python file-name argument as received by the
writer functions: either a pathlib Path or a plain string (the writers accept
only Path; a string, even a well-formed one, is a type error per the tests). -/
inductive PyFile : Type where
  | path (p : String)
  | plainStr (s : String)
deriving DecidableEq, Repr

namespace Jktebop

/-- Modelled from the spec: the required parameter keys of the photometric
model task (task 2), taken from the full valid task-2 parameter set used by
the unit tests (test_jktebop.py, `_task2_params`). -/
def task2_required_keys : List String :=
  ["ring", "rA_plus_rB", "k", "inc", "qphot", "ecosw", "esinw", "gravA",
   "gravB", "J", "L3", "LDA", "LDB", "LDA1", "LDB1", "LDA2", "LDB2",
   "reflA", "reflB"]

/-- Modelled from the spec: the fit task (task 3) additionally requires the
orbital period, reference epoch, per-parameter fit flags and a data file name
(spec section 3; test_jktebop.py, `_task3_params`). -/
def task3_required_keys : List String :=
  task2_required_keys ++
  ["period", "primary_epoch", "ecosw_fit", "esinw_fit", "L3_fit",
   "LDA1_fit", "LDB1_fit", "LDA2_fit", "LDB2_fit", "data_file_name"]

/-- The required keys of the task that are absent from the parameter set, in
required-key order.  The missing-key failure carries exactly this list, so it
names every absent required key, not just the first (spec section 4.1). -/
def missing_keys (req : List String) (ps : ParameterSet) : List String :=
  req.filter (fun k => !(aget ps k).isSome)

/-- Modelled from the spec: domain rule for the radius-sum fraction, which
must lie in the half-open interval (0, 0.8] (spec section 4.1). -/
def check_rA_plus_rB (v : Option Value) : Option (String × ℚ) :=
  match v with
  | some (.num q) =>
      if 0 < q ∧ q ≤ mkRat 4 5 then none else some ("rA_plus_rB", q)
  | _ => none

/-- Modelled from the spec: domain rule for third light, which must be
nonnegative (spec section 4.1). -/
def check_L3 (v : Option Value) : Option (String × ℚ) :=
  match v with
  | some (.num q) => if 0 ≤ q then none else some ("L3", q)
  | _ => none

/-- Modelled from the spec: domain rule for the inclination, which must lie in
(0, 90] (spec section 4.1). -/
def check_inc (v : Option Value) : Option (String × ℚ) :=
  match v with
  | some (.num q) => if 0 < q ∧ q ≤ 90 then none else some ("inc", q)
  | _ => none

/-- Modelled from the spec: `validate(params)` checks the value-domain rules of
spec section 4.1 independent of task and reports the first violation as the
offending parameter name and value.  The limb-darkening coefficient ranges are
left unchecked here because the spec does not state their bounds and no test
exercises them. -/
def validate_params (ps : ParameterSet) : Option (String × ℚ) :=
  match check_rA_plus_rB (aget ps "rA_plus_rB") with
  | some bad => some bad
  | none =>
    match check_L3 (aget ps "L3") with
    | some bad => some bad
    | none => check_inc (aget ps "inc")

/-- Numeric negation of a parameter value; a string value cannot be negated
(Python would raise TypeError). -/
def vneg : Value → Except PyError Value
  | .num q => .ok (.num (-q))
  | .str s => .error (.typeError (String.append "cannot negate " s))

/-- Numeric sentinel shift used by the eccentricity reparameterization. -/
def vadd_ten : Value → Except PyError Value
  | .num q => .ok (.num (10 + q))
  | .str s => .error (.typeError (String.append "cannot add to " s))

/-- Modelled from the spec: the radius reparameterization fit policy.  Given
`rA` and `rB` present it rewrites `rA_plus_rB` to the negative of `rA` and `k`
to `rB`; it fails with a missing-key error if either prerequisite is absent
(spec sections 3 and 4.2). -/
def transform_radius (ps : ParameterSet) : Except PyError ParameterSet :=
  match aget ps "rA", aget ps "rB" with
  | some a, some b =>
      match vneg a with
      | .error e => .error e
      | .ok na => .ok (aset (aset ps "rA_plus_rB" na) "k" b)
  | a, b =>
      .error (.keyError (((if a.isSome then [] else ["rA"]) ++
                          (if b.isSome then [] else ["rB"]))))

/-- Modelled from the spec: the eccentricity reparameterization fit policy.
Given `e` and `omega` present it rewrites `ecosw` to `10 + e` and `esinw` to
`omega`; it fails with a missing-key error if either prerequisite is absent
(spec sections 3 and 4.2). -/
def transform_ecc (ps : ParameterSet) : Except PyError ParameterSet :=
  match aget ps "e", aget ps "omega" with
  | some e, some om =>
      match vadd_ten e with
      | .error err => .error err
      | .ok se => .ok (aset (aset ps "ecosw" se) "esinw" om)
  | e, om =>
      .error (.keyError (((if e.isSome then [] else ["e"]) ++
                          (if om.isSome then [] else ["omega"]))))

/-- Modelled from the spec: the reflection-coefficient policy applies only to
the photometric model task (task 2): it sets `reflA` and `reflB` to the
sentinel -100, inserting the keys when absent; on any other task it is a no-op
(spec sections 3 and 4.2). -/
def apply_refl (task : Int) (ps : ParameterSet) : ParameterSet :=
  if task = 2 then aset (aset ps "reflA" (.num (-100))) "reflB" (.num (-100))
  else ps

/-- Modelled from the spec: `_prepare_params_for_task` applies the three fit
policies in the fixed order radius, eccentricity, reflection (spec section
4.2).  Mutation is modelled explicitly: the result pairs the caller mapping
after the call with the returned mapping.  With `in_place = true` both are the
transformed mapping (Python mutates and returns the argument); with
`in_place = false` the caller mapping is returned unchanged alongside an
independent transformed copy.  None arguments fail with a type error. -/
def _prepare_params_for_task (task : Option Int) (params : Option ParameterSet)
    (fit_rA_and_rB fit_e_and_omega calc_refl_coeffs in_place : Bool) :
    Except PyError (ParameterSet × ParameterSet) :=
  match task, params with
  | none, _ => .error (.typeError "task is None")
  | some _, none => .error (.typeError "params is None")
  | some t, some ps =>
    match (if fit_rA_and_rB then transform_radius ps else .ok ps) with
    | .error e => .error e
    | .ok ps1 =>
      match (if fit_e_and_omega then transform_ecc ps1 else .ok ps1) with
      | .error e => .error e
      | .ok ps2 =>
        let ps3 := if calc_refl_coeffs then apply_refl t ps2 else ps2
        if in_place then .ok (ps3, ps3) else .ok (ps, ps3)

/-- Modelled from the spec: rendering the control-file body substitutes every
required key of the task in template order (spec section 4.3); the rendered
body is modelled as the ordered list of substituted key/value pairs. -/
def render_in_file (req : List String) (ps : ParameterSet) :
    List (String × Value) :=
  req.map (fun k => (k, (aget ps k).getD (.num 0)))

/-- Modelled from the spec: a written control file is the rendered template
body plus the caller-supplied free-text lines appended in order (spec section
4.3).  No claim under verification depends on the textual layout, so the
rendered body is kept structured. -/
structure RenderedFile : Type where
  body : List (String × Value)
  appended : List String
deriving DecidableEq, Repr

/-- Modelled from the spec: `write_task3_in_file(file_name, append_lines,
**params)`.  It fails with a type error unless the file argument is a Path,
then with a missing-key error naming every absent required task-3 key, then
with a value-domain error on the first domain rule violation, and only then
renders the file (spec sections 4.1 and 4.3; an error result models that
nothing was written). -/
def write_task3_in_file (file_name : Option PyFile) (append_lines : List String)
    (params : ParameterSet) : Except PyError RenderedFile :=
  match file_name with
  | some (.path _) =>
    let missing := missing_keys task3_required_keys params
    if missing = [] then
      match validate_params params with
      | some (n, v) => .error (.valueError n v)
      | none => .ok ⟨render_in_file task3_required_keys params, append_lines⟩
    else .error (.keyError missing)
  | _ => .error (.typeError "file_name must be a Path")

/-- Modelled from the spec: the external jktebop binary output, a 2 x N table,
N determined by the tool (spec sections 3 and 6).  The numeric model computed
by the third-party binary is out of scope; it is modelled as a deterministic
function of the rendered control file producing 100 rows of (phase,
magnitude) pairs. -/
def jktebop_model_rows (render : List (String × Value)) : List (ℚ × ℚ) :=
  let j : ℚ := match aget render "J" with | some (.num q) => q | _ => 0
  (List.range 100).map (fun i => (mkRat (Int.ofNat i) 100, j))

/-- Modelled from the spec: one blocking invocation of the external binary on
the rendered control file (spec section 6).  The jktebop binary itself rejects
parameter values outside its supported domain, for example a radius sum above
0.8 in version 43 (test_jktebop.py line 83), exiting non-zero; otherwise it
exits 0 having produced its output rows. -/
def run_jktebop (render : List (String × Value)) :
    Except PyError (List (ℚ × ℚ)) :=
  match validate_params render with
  | some _ => .error (.calledProcessError 1)
  | none => .ok (jktebop_model_rows render)

/-- Modelled from the spec: the output parser reads the generated table into a
2 x N array, row 0 the phase values and row 1 the magnitudes, failing with a
format error on an empty table (spec section 4.5). -/
def parse_out_file (rows : List (ℚ × ℚ)) : Except PyError (List ℚ × List ℚ) :=
  if rows = [] then .error (.formatError "no data rows")
  else .ok (rows.map Prod.fst, rows.map Prod.snd)

/-- Modelled from the spec: `generate_model_light_curve(file_prefix, **params)`
checks its arguments, fails with a missing-key error naming every absent
required task-2 key, renders the task-2 control file and invokes the external
binary, surfacing a non-zero exit as a process failure (spec section 4.4).
Per the repository tests there is no pre-spawn domain validation on this path:
an out-of-domain value reaches the spawned binary, which fails
(test_jktebop.py lines 80 to 84). -/
def generate_model_light_curve (filePfx : Option String)
    (params : Option ParameterSet) : Except PyError (List ℚ × List ℚ) :=
  match filePfx, params with
  | none, _ => .error (.typeError "file name stem is None")
  | some _, none => .error (.typeError "params is None")
  | some _, some ps =>
    let missing := missing_keys task2_required_keys ps
    if missing = [] then
      match _prepare_params_for_task (some 2) (some ps) false false false false with
      | .error e => .error e
      | .ok (_, prepped) =>
        match run_jktebop (render_in_file task2_required_keys prepped) with
        | .error e => .error e
        | .ok rows => parse_out_file rows
    else .error (.keyError missing)

/-- Modelled from the spec: the light-curve argument of the dat-file writer:
either a LightCurve table with time, delta magnitude and error columns, or
some other array-like object, which is a type error per the tests. -/
inductive LCArg : Type where
  | lightcurve (rows : List (ℚ × ℚ × ℚ))
  | rawArray (rows : List (List ℚ))
deriving DecidableEq, Repr

/-- Modelled from the spec: `write_light_curve_to_dat_file(lc, file_name,
column_names, column_formats)` fails with a type error unless `lc` is a
LightCurve and `file_name` a Path (before any output is produced), then with a
count mismatch error when the column name and format lists disagree in length;
otherwise it writes the selected columns (modelled as the written rows). -/
def write_light_curve_to_dat_file (lc : Option LCArg)
    (file_name : Option PyFile) (column_names : Option (List String))
    (column_formats : Option (List String)) :
    Except PyError (List (List ℚ)) :=
  match lc, file_name with
  | some (.lightcurve rows), some (.path _) =>
    let names := column_names.getD ["time", "delta_mag", "delta_mag_err"]
    let fmts := column_formats.getD ["%.6f", "%.6f", "%.6f"]
    if names.length = fmts.length then
      .ok (rows.map (fun r => [r.1, r.2.1, r.2.2]))
    else .error (.valueError "column argument lengths differ" 0)
  | _, _ => .error (.typeError "lc must be a LightCurve and file_name a Path")

end Jktebop

namespace DebExample

/-- Python `int()` truncation toward zero of a rational, used on the bin count
when building a mags key. -/
def qtrunc (q : ℚ) : ℤ := Int.tdiv q.num q.den

/-- Rounding of `q * m` to the nearest integer, halves away from zero toward
positive infinity; computed directly on the numerator and denominator so that
it evaluates by kernel reduction. -/
def round_scaled (q : ℚ) (m : ℤ) : ℤ :=
  Int.fdiv (2 * m * q.num + q.den) (2 * q.den)

/-- Decimal-digit rendering of a fraction part already scaled to thousandths:
three digits with trailing zeros stripped but at least one digit kept,
matching the Python repr of a float rounded to three decimals. -/
def frac3_digits (fp : ℕ) : String :=
  let d1 := fp / 100
  let d2 := fp / 10 % 10
  let d3 := fp % 10
  if d3 ≠ 0 then Nat.repr d1 ++ Nat.repr d2 ++ Nat.repr d3
  else if d2 ≠ 0 then Nat.repr d1 ++ Nat.repr d2
  else Nat.repr d1

/-- Python-float style rendering of a rational rounded to three decimals, as
interpolated into a mags key: integer part, a dot, then the stripped fraction
digits (a whole number renders as for example 2.0). -/
def fmt_round3 (q : ℚ) : String :=
  let m : ℤ := round_scaled q 1000
  let sign := if m < 0 then "-" else ""
  let n := m.natAbs
  sign ++ Nat.repr (n / 1000) ++ "." ++ frac3_digits (n % 1000)

/-- Modelled from the spec: `create_mags_key(mags_bins, mags_wrap_phase)`
builds the canonical key string from the bin count truncated to an integer
and the wrap phase rounded to three decimals (spec section 3;
test_deb_example.py lines 20 to 28). -/
def create_mags_key (mags_bins : ℚ) (mags_wrap_phase : ℚ) : String :=
  "mags_" ++ Int.repr (qtrunc mags_bins) ++ "_" ++ fmt_round3 mags_wrap_phase

/-- Modelled from the spec: the compact floating representation used by the
record codec (spec section 4.6) is a binary32 scalar; encoding a rational
rounds its significand to 24 binary digits.  Zero is stored exactly. -/
def f32_round (q : ℚ) : ℚ :=
  if q = 0 then 0
  else ((round (q * (2 : ℚ) ^ (23 - Int.log 2 |q|)) : ℤ) : ℚ) *
       (2 : ℚ) ^ (Int.log 2 |q| - 23)

/-- Modelled from the spec: the process-wide label registry mapping label name
to its fixed non-zero scale factor, insertion order defining the default
label order (spec section 6).  The entries are those the unit tests exercise;
the scale of `inc` is 1/100 (test_deb_example.py line 238). -/
def labels_and_scales : List (String × ℚ) :=
  [("rA_plus_rB", 1), ("k", 1), ("J", 1), ("ecosw", 1), ("esinw", 1),
   ("bP", 1), ("L3", 1), ("inc", mkRat 1 100)]

/-- Modelled from the spec: the process-wide extra-feature registry mapping
feature name to its default value, insertion order defining the default
feature order (spec section 6; test_deb_example.py uses phiS and dS_over_dP
in that order). -/
def extra_features_and_defaults : List (String × ℚ) :=
  [("phiS", mkRat 1 2), ("dS_over_dP", 1)]

/-- Modelled from the spec: the default light-curve bin count. -/
def default_mags_bins : ℕ := 4096

/-- Modelled from the spec: the default wrap phase. -/
def default_mags_wrap_phase : ℚ := mkRat 3 4

/-- The mags key of the default binning. -/
def default_mags_key : String :=
  create_mags_key (default_mags_bins : ℚ) default_mags_wrap_phase

/-- Modelled from the spec: one Instance Record: identifier, label values,
keyed light-curve bins (several resolutions may coexist) and extra scalar
features (spec section 3). -/
structure Record : Type where
  id : String
  labels : List (String × ℚ)
  mags : List (String × List ℚ)
  extras : List (String × ℚ)
deriving DecidableEq, Repr

/-- Modelled from the spec: `serialize(id, labels, lc_features, ext_features)`
encodes one instance into the record format; every scalar passes through the
compact binary32 representation, so the stored record holds the rounded
values (spec section 4.6). -/
def serialize (id : String) (labels : List (String × ℚ))
    (lc_features : List (String × List ℚ)) (ext_features : List (String × ℚ)) :
    Record :=
  { id := id
  , labels := labels.map (fun p => (p.1, f32_round p.2))
  , mags := lc_features.map (fun p => (p.1, p.2.map f32_round))
  , extras := ext_features.map (fun p => (p.1, f32_round p.2)) }

/-- The typed fields produced by the decode side of the transform pipeline:
the selected light curve, the extra features in registry order and the scaled
labels in registry order. -/
structure Decoded : Type where
  mags : List ℚ
  ext_features : List ℚ
  labels : List ℚ
deriving DecidableEq, Repr

/-- Modelled from the spec: the decode function built by `create_map_func`
with default feature and label selections and no augmentation: it looks up
the light curve under the key derived from the requested binning, fills each
registered extra feature from the record or its registered default, and
multiplies each registered label by its scale factor (spec section 4.7). -/
def create_map_func (mags_bins : ℕ) (mags_wrap_phase : ℚ) (stored : Record) :
    Decoded :=
  { mags := (aget stored.mags (create_mags_key (mags_bins : ℚ) mags_wrap_phase)).getD []
  , ext_features :=
      extra_features_and_defaults.map (fun p => (aget stored.extras p.1).getD p.2)
  , labels :=
      labels_and_scales.map (fun p => ((aget stored.labels p.1).getD 0) * p.2) }

/-- Boolean membership of a string in a list of strings. -/
def smem (s : String) : List String → Bool
  | [] => false
  | t :: rest => s == t || smem s rest

/-- Modelled from the spec: the rows of a logical dataset are the
concatenation of its shard files in file-list order, file-internal order
preserved (spec section 3). -/
def dataset_rows (files : List (List Record)) : List Record := files.flatten

/-- Modelled from the spec: `iterate_dataset` streams the dataset rows in
storage order, keeping only rows whose identifier is in the supplied filter
when one is given (storage order is preserved, not the order of the
identifiers argument), and decodes each row (spec section 4.8). -/
def iterate_dataset (files : List (List Record)) (mags_bins : ℕ)
    (mags_wrap_phase : ℚ) (identifiers : Option (List String)) :
    List (String × Decoded) :=
  ((dataset_rows files).filter (fun r =>
      match identifiers with
      | none => true
      | some ids => smem r.id ids)).map
    (fun r => (r.id, create_map_func mags_bins mags_wrap_phase r))

/-- Modelled from the spec: `read_dataset` materializes the iterated rows;
when identifiers are supplied the rows are additionally reordered to match
the requested identifier order, the one behavioral divergence from
`iterate_dataset` (spec section 4.8). -/
def read_dataset (files : List (List Record)) (mags_bins : ℕ)
    (mags_wrap_phase : ℚ) (identifiers : Option (List String)) :
    List (String × Decoded) :=
  match identifiers with
  | none => iterate_dataset files mags_bins mags_wrap_phase none
  | some ids =>
    ids.filterMap (fun i =>
      (iterate_dataset files mags_bins mags_wrap_phase (some ids)).find?
        (fun row => row.1 == i))

end DebExample

open Jktebop DebExample

theorem aget_aset_self {α : Type} (l : List (String × α)) (k : String) (v : α) :
    aget (aset l k v) k = some v := by
  induction l with
  | nil => simp [aget, aset]
  | cons p rest ih =>
    by_cases h : p.1 = k
    · simp [aset, aget, h]
    · simp [aset, aget, h, ih]

theorem aget_aset_ne {α : Type} (l : List (String × α)) (k k2 : String) (v : α)
    (h : k ≠ k2) : aget (aset l k v) k2 = aget l k2 := by
  induction l with
  | nil => simp [aget, aset, h]
  | cons p rest ih =>
    by_cases hp : p.1 = k
    · simp [aset, aget, hp, h]
    · by_cases hp2 : p.1 = k2
      · simp [aset, aget, hp, hp2, Ne.symm h]
      · simp [aset, aget, hp, hp2, ih]

theorem aget_map_snd {α β : Type} (f : α → β) (l : List (String × α)) (k : String) :
    aget (l.map (fun p => (p.1, f p.2))) k = (aget l k).map f := by
  induction l with
  | nil => simp [aget]
  | cons p rest ih =>
    by_cases h : p.1 = k
    · simp [aget, h]
    · simp [aget, h, ih]

theorem aget_append_of_disjoint {α : Type} (l1 l2 : List (String × α)) (k : String)
    (h : ∀ p ∈ l2, p.1 ≠ k) : aget (l1 ++ l2) k = aget l1 k := by
  induction l1 with
  | nil =>
    simp only [List.nil_append, aget]
    induction l2 with
    | nil => rfl
    | cons q rest ih =>
      have hq : q.1 ≠ k := h q (by simp)
      simp only [aget, if_neg hq]
      exact ih (fun p hp => h p (by simp [hp]))
  | cons p rest ih =>
    by_cases hp : p.1 = k
    · simp [aget, hp]
    · simp [aget, hp, ih]

/-- Claim C4: with the radius fit policy requested, `_prepare_params_for_task`
rewrites `rA_plus_rB` to the negative of `rA` and `k` to `rB` whenever both
`rA` and `rB` are numeric and present (for example mapping rA_plus_rB to -2
and k to 1 on rA = 2, rB = 1), and fails with a missing-key error when either
`rA` or `rB` is absent. -/
theorem prepare_fit_rA_and_rB_policy (t : Int) (ps : ParameterSet) (inpl : Bool) :
    (∀ a b : ℚ, aget ps "rA" = some (.num a) → aget ps "rB" = some (.num b) →
      ∃ after ret,
        _prepare_params_for_task (some t) (some ps) true false false inpl =
          .ok (after, ret) ∧
        aget ret "rA_plus_rB" = some (.num (-a)) ∧
        aget ret "k" = some (.num b))
  ∧ (aget ps "rA" = none → ∃ ks, ks ≠ [] ∧
      _prepare_params_for_task (some t) (some ps) true false false inpl =
        .error (.keyError ks))
  ∧ (aget ps "rB" = none → ∃ ks, ks ≠ [] ∧
      _prepare_params_for_task (some t) (some ps) true false false inpl =
        .error (.keyError ks)) := by
  refine ⟨?_, ?_, ?_⟩
  · intro a b ha hb
    have hne : "k" ≠ "rA_plus_rB" := by decide
    have hres : _prepare_params_for_task (some t) (some ps) true false false inpl =
        .ok ((if inpl then aset (aset ps "rA_plus_rB" (.num (-a))) "k" (.num b) else ps),
             aset (aset ps "rA_plus_rB" (.num (-a))) "k" (.num b)) := by
      cases inpl <;> simp [_prepare_params_for_task, transform_radius, ha, hb, vneg]
    exact ⟨_, _, hres,
      by rw [aget_aset_ne _ _ _ _ hne, aget_aset_self],
      by rw [aget_aset_self]⟩
  · intro ha
    cases hb : aget ps "rB" with
    | none =>
      exact ⟨["rA", "rB"], by decide,
        by simp [_prepare_params_for_task, transform_radius, ha, hb]⟩
    | some b =>
      exact ⟨["rA"], by decide,
        by simp [_prepare_params_for_task, transform_radius, ha, hb]⟩
  · intro hb
    cases ha : aget ps "rA" with
    | none =>
      exact ⟨["rA", "rB"], by decide,
        by simp [_prepare_params_for_task, transform_radius, ha, hb]⟩
    | some a =>
      exact ⟨["rB"], by decide,
        by simp [_prepare_params_for_task, transform_radius, ha, hb]⟩

/-- Sample parameter set used to instantiate the radius fit policy claims,
matching the test values rA = 2, rB = 1, rA_plus_rB = 3, k = 0.5. -/
def radius_example_params : ParameterSet :=
  [("rA", .num 2), ("rB", .num 1), ("rA_plus_rB", .num 3), ("k", .num (mkRat 1 2))]

theorem prepare_fit_rA_and_rB_policy_witness :
    ∃ after ret,
      _prepare_params_for_task (some 2) (some radius_example_params)
        true false false true = .ok (after, ret) ∧
      aget ret "rA_plus_rB" = some (.num (-2)) ∧
      aget ret "k" = some (.num 1) :=
  (prepare_fit_rA_and_rB_policy 2 radius_example_params true).1 2 1
    (by decide) (by decide)

/-- Claim C5: the reflection-coefficient policy applies only to task 2:
`_prepare_params_for_task(task = 2, calc_refl_coeffs = true)` sets `reflA` and
`reflB` to the sentinel -100 in the returned mapping, inserting the keys when
absent, while the same call with task = 3 returns every parameter set
unchanged, so pre-existing reflA/reflB values are untouched. -/
theorem prepare_reflection_policy_task2_only (ps : ParameterSet) (inpl : Bool) :
    (∃ after ret,
      _prepare_params_for_task (some 2) (some ps) false false true inpl =
        .ok (after, ret) ∧
      aget ret "reflA" = some (.num (-100)) ∧
      aget ret "reflB" = some (.num (-100)))
  ∧ _prepare_params_for_task (some 3) (some ps) false false true inpl =
      .ok (ps, ps) := by
  constructor
  · have hres : _prepare_params_for_task (some 2) (some ps) false false true inpl =
        .ok ((if inpl then aset (aset ps "reflA" (.num (-100))) "reflB" (.num (-100)) else ps),
             aset (aset ps "reflA" (.num (-100))) "reflB" (.num (-100))) := by
      cases inpl <;> simp [_prepare_params_for_task, apply_refl]
    exact ⟨_, _, hres,
      by rw [aget_aset_ne _ _ _ _ (by decide : "reflB" ≠ "reflA"), aget_aset_self],
      by rw [aget_aset_self]⟩
  · cases inpl <;> simp [_prepare_params_for_task, apply_refl]

/-- Claim C6: `_prepare_params_for_task` with `in_place = false` leaves the
caller mapping pristine and returns the transformed copy, while with
`in_place = true` the caller mapping and the returned mapping are the same
transformed mapping; the two modes agree on the transformation and on every
failure. -/
theorem prepare_in_place_modes (t : Int) (ps : ParameterSet) (f1 f2 f3 : Bool) :
    (∀ after ret,
      _prepare_params_for_task (some t) (some ps) f1 f2 f3 false = .ok (after, ret) →
      after = ps ∧
      _prepare_params_for_task (some t) (some ps) f1 f2 f3 true = .ok (ret, ret))
  ∧ (∀ e,
      _prepare_params_for_task (some t) (some ps) f1 f2 f3 false = .error e →
      _prepare_params_for_task (some t) (some ps) f1 f2 f3 true = .error e) := by
  constructor
  · intro after ret h
    cases h1 : (if f1 then transform_radius ps else .ok ps) with
    | error e => simp [_prepare_params_for_task, h1] at h
    | ok ps1 =>
      cases h2 : (if f2 then transform_ecc ps1 else .ok ps1) with
      | error e => simp [_prepare_params_for_task, h1, h2] at h
      | ok ps2 =>
        simp [_prepare_params_for_task, h1, h2] at h ⊢
        exact ⟨h.1.symm, h.2⟩
  · intro e h
    cases h1 : (if f1 then transform_radius ps else .ok ps) with
    | error e1 =>
      simp [_prepare_params_for_task, h1] at h ⊢
      exact h
    | ok ps1 =>
      cases h2 : (if f2 then transform_ecc ps1 else .ok ps1) with
      | error e2 =>
        simp [_prepare_params_for_task, h1, h2] at h ⊢
        exact h
      | ok ps2 => simp [_prepare_params_for_task, h1, h2] at h

/-- The transformed mapping produced from `radius_example_params` by the
radius fit policy: rA_plus_rB becomes -2 and k becomes 1. -/
def radius_example_prepped : ParameterSet :=
  [("rA", .num 2), ("rB", .num 1), ("rA_plus_rB", .num (-2)), ("k", .num 1)]

theorem prepare_in_place_modes_witness :
    radius_example_params = radius_example_params ∧
    _prepare_params_for_task (some 2) (some radius_example_params)
      true false false true = .ok (radius_example_prepped, radius_example_prepped) :=
  (prepare_in_place_modes 2 radius_example_params true false false).1
    radius_example_params radius_example_prepped (by decide)

/-- Claim C7: a parameter set missing required keys for the requested task
fails with a missing-key error carrying the list of all absent required keys
for that task, for the task-3 control-file writer and for the task-2 model
generator alike; the error result models that nothing was rendered and no
subprocess was spawned.  The last two conjuncts state that the carried list
names every absent required key, not just the first. -/
theorem require_names_every_missing_key (ps : ParameterSet) (f pre : String)
    (lines : List String) :
    (missing_keys task3_required_keys ps ≠ [] →
      write_task3_in_file (some (.path f)) lines ps =
        .error (.keyError (missing_keys task3_required_keys ps)))
  ∧ (missing_keys task2_required_keys ps ≠ [] →
      generate_model_light_curve (some pre) (some ps) =
        .error (.keyError (missing_keys task2_required_keys ps)))
  ∧ (∀ k, k ∈ task3_required_keys → aget ps k = none →
      k ∈ missing_keys task3_required_keys ps)
  ∧ (∀ k, k ∈ task2_required_keys → aget ps k = none →
      k ∈ missing_keys task2_required_keys ps) := by
  refine ⟨?_, ?_, ?_, ?_⟩
  · intro h
    simp [write_task3_in_file, h]
  · intro h
    simp [generate_model_light_curve, h]
  · intro k hk ha
    exact List.mem_filter.mpr ⟨hk, by simp [ha]⟩
  · intro k hk ha
    exact List.mem_filter.mpr ⟨hk, by simp [ha]⟩

theorem require_names_every_missing_key_witness :
    write_task3_in_file (some (.path "any_old_file_will_do.dat")) []
        [("k", .num (mkRat 1 2))] =
      .error (.keyError (missing_keys task3_required_keys [("k", .num (mkRat 1 2))]))
  ∧ generate_model_light_curve (some "test_deblib_") (some [("rA", .num 2)]) =
      .error (.keyError (missing_keys task2_required_keys [("rA", .num 2)])) :=
  have h := require_names_every_missing_key [("k", .num (mkRat 1 2))]
    "any_old_file_will_do.dat" "x" []
  have h2 := require_names_every_missing_key [("rA", .num 2)]
    "x" "test_deblib_" []
  ⟨h.1 (by decide), h2.2.1 (by decide)⟩

/-- A full valid task-2 parameter set, mirroring the `_task2_params` fixture
of the unit tests. -/
def task2_sample_params : ParameterSet :=
  [("ring", .num 2), ("rA_plus_rB", .num (mkRat 3 10)), ("k", .num (mkRat 1 2)),
   ("inc", .num 90), ("qphot", .num (mkRat 1 2)), ("ecosw", .num 0),
   ("esinw", .num 0), ("gravA", .num 0), ("gravB", .num 0),
   ("J", .num (mkRat 4 5)), ("L3", .num 0), ("LDA", .str "quad"),
   ("LDB", .str "quad"), ("LDA1", .num (mkRat 1 4)), ("LDB1", .num (mkRat 1 4)),
   ("LDA2", .num (mkRat 11 50)), ("LDB2", .num (mkRat 11 50)),
   ("reflA", .num 0), ("reflB", .num 0)]

/-- A full valid task-3 parameter set, mirroring the `_task3_params` fixture
of the unit tests. -/
def task3_sample_params : ParameterSet :=
  task2_sample_params ++
  [("period", .num (mkRat 5 2)), ("primary_epoch", .num (mkRat 5987654321 100000)),
   ("ecosw_fit", .num 1), ("esinw_fit", .num 1), ("L3_fit", .num 1),
   ("LDA1_fit", .num 1), ("LDB1_fit", .num 1), ("LDA2_fit", .num 0),
   ("LDB2_fit", .num 0), ("data_file_name", .str "cw_eri_s0004.dat")]

/-- The task-2 fixture with the domain-violating value rA_plus_rB = 0.9. -/
def task2_bad_params : ParameterSet :=
  aset task2_sample_params "rA_plus_rB" (.num (mkRat 9 10))

/-- The task-3 fixture with the domain-violating value rA_plus_rB = 0.9. -/
def task3_bad_params : ParameterSet :=
  aset task3_sample_params "rA_plus_rB" (.num (mkRat 9 10))

/-- Claim C1 counterexample: a parameter set whose rA_plus_rB = 0.9 violates
the domain rule (validation reports it), yet `generate_model_light_curve`
fails with a subprocess failure (CalledProcessError), not a value-domain
error: on the task-2 model-generation path the invalid input reaches the
spawned external binary, exactly as the repository test asserts
(test_jktebop.py lines 80 to 84).  So validation does not run before process
invocation on every path. -/
theorem domain_violation_reaches_subprocess_counterexample :
    validate_params task2_bad_params = some ("rA_plus_rB", mkRat 9 10)
  ∧ generate_model_light_curve (some "test_deblib_") (some task2_bad_params) =
      .error (.calledProcessError 1) := by
  exact ⟨by decide, by decide⟩

theorem aget_render_mem (req : List String) (ps : ParameterSet) (k : String)
    (hk : k ∈ req) (hnd : req.Nodup) :
    aget (render_in_file req ps) k = some ((aget ps k).getD (.num 0)) := by
  induction req with
  | nil => cases hk
  | cons r rest ih =>
    by_cases h : r = k
    · subst h
      simp [render_in_file, aget]
    · have hk2 : k ∈ rest := by
        cases hk with
        | head => exact absurd rfl h
        | tail _ hmem => exact hmem
      have := ih hk2 hnd.of_cons
      simp only [render_in_file, List.map_cons, aget, if_neg h]
      exact this

theorem missing_keys_nil_isSome (req : List String) (ps : ParameterSet)
    (h : missing_keys req ps = []) :
    ∀ k ∈ req, (aget ps k).isSome = true := by
  intro k hk
  by_contra hna
  have : k ∈ missing_keys req ps :=
    List.mem_filter.mpr ⟨hk, by simp [Bool.not_eq_true] at hna; simp [hna]⟩
  simp [h] at this

theorem validate_render_eq (ps : ParameterSet)
    (h : missing_keys task2_required_keys ps = []) :
    validate_params (render_in_file task2_required_keys ps) = validate_params ps := by
  have hnd : task2_required_keys.Nodup := by decide
  have hall := missing_keys_nil_isSome task2_required_keys ps h
  have h1 : aget (render_in_file task2_required_keys ps) "rA_plus_rB" =
      aget ps "rA_plus_rB" := by
    obtain ⟨v, hv⟩ := Option.isSome_iff_exists.mp (hall "rA_plus_rB" (by decide))
    rw [aget_render_mem _ _ _ (by decide) hnd, hv]
    rfl
  have h2 : aget (render_in_file task2_required_keys ps) "L3" = aget ps "L3" := by
    obtain ⟨v, hv⟩ := Option.isSome_iff_exists.mp (hall "L3" (by decide))
    rw [aget_render_mem _ _ _ (by decide) hnd, hv]
    rfl
  have h3 : aget (render_in_file task2_required_keys ps) "inc" = aget ps "inc" := by
    obtain ⟨v, hv⟩ := Option.isSome_iff_exists.mp (hall "inc" (by decide))
    rw [aget_render_mem _ _ _ (by decide) hnd, hv]
    rfl
  rw [validate_params, validate_params, h1, h2, h3]

/-- Claim C1, amended: a value-domain violation fails with a value-domain
error before rendering only on the task-3 control-file write path; on the
task-2 model-generation path no validation runs before the spawn, and the
domain-violating parameter set instead surfaces as a subprocess failure after
the external binary is invoked. -/
theorem validation_before_render_amended (ps : ParameterSet) (f pre : String)
    (lines : List String) (n : String) (v : ℚ)
    (hval : validate_params ps = some (n, v)) :
    (missing_keys task3_required_keys ps = [] →
      write_task3_in_file (some (.path f)) lines ps = .error (.valueError n v))
  ∧ (missing_keys task2_required_keys ps = [] →
      generate_model_light_curve (some pre) (some ps) =
        .error (.calledProcessError 1)) := by
  constructor
  · intro h
    simp [write_task3_in_file, h, hval]
  · intro h
    have hprep : _prepare_params_for_task (some 2) (some ps) false false false false =
        .ok (ps, ps) := by
      simp [_prepare_params_for_task]
    have hrun : run_jktebop (render_in_file task2_required_keys ps) =
        .error (.calledProcessError 1) := by
      rw [run_jktebop, validate_render_eq ps h, hval]
    simp [generate_model_light_curve, h, hprep, hrun]

theorem validation_before_render_amended_witness :
    write_task3_in_file (some (.path "any_old_file_will_do.dat")) [] task3_bad_params =
      .error (.valueError "rA_plus_rB" (mkRat 9 10))
  ∧ generate_model_light_curve (some "p") (some task3_bad_params) =
      .error (.calledProcessError 1) :=
  have h := validation_before_render_amended task3_bad_params
    "any_old_file_will_do.dat" "p" [] "rA_plus_rB" (mkRat 9 10) (by decide)
  ⟨h.1 (by decide), h.2 (by decide)⟩

/-- Claim C9: appending parameter keys the task-2 template does not recognise
changes nothing: `generate_model_light_curve` yields the identical outcome
with and without the extras, and on success the model is a 2-row array (a
pair of rows of equal positive length). -/
theorem generate_ignores_unrecognized_params (ps extras : ParameterSet)
    (pre : String)
    (hdisj : ∀ p ∈ extras, p.1 ∉ task2_required_keys) :
    generate_model_light_curve (some pre) (some (ps ++ extras)) =
      generate_model_light_curve (some pre) (some ps)
  ∧ (∀ m, generate_model_light_curve (some pre) (some ps) = .ok m →
      0 < m.1.length ∧ m.2.length = m.1.length) := by
  have hag : ∀ k ∈ task2_required_keys, aget (ps ++ extras) k = aget ps k := by
    intro k hk
    exact aget_append_of_disjoint ps extras k
      (fun p hp he => hdisj p hp (he ▸ hk))
  have hmiss : missing_keys task2_required_keys (ps ++ extras) =
      missing_keys task2_required_keys ps :=
    List.filter_congr (fun k hk => by rw [hag k hk])
  have hrender : render_in_file task2_required_keys (ps ++ extras) =
      render_in_file task2_required_keys ps :=
    List.map_congr_left (fun k hk => by rw [hag k hk])
  constructor
  · by_cases h : missing_keys task2_required_keys ps = []
    · have hprep1 : _prepare_params_for_task (some 2) (some (ps ++ extras))
          false false false false = .ok (ps ++ extras, ps ++ extras) := by
        simp [_prepare_params_for_task]
      have hprep2 : _prepare_params_for_task (some 2) (some ps)
          false false false false = .ok (ps, ps) := by
        simp [_prepare_params_for_task]
      simp [generate_model_light_curve, hmiss, h, hprep1, hprep2, hrender]
    · simp [generate_model_light_curve, hmiss, h]
  · intro m hm
    by_cases h : missing_keys task2_required_keys ps = []
    · have hprep : _prepare_params_for_task (some 2) (some ps)
          false false false false = .ok (ps, ps) := by
        simp [_prepare_params_for_task]
      cases hv : validate_params (render_in_file task2_required_keys ps) with
      | some bad =>
        simp [generate_model_light_curve, h, hprep, run_jktebop, hv] at hm
      | none =>
        have heq : generate_model_light_curve (some pre) (some ps) =
            parse_out_file (jktebop_model_rows (render_in_file task2_required_keys ps)) := by
          simp [generate_model_light_curve, h, hprep, run_jktebop, hv]
        rw [heq] at hm
        have hnil : jktebop_model_rows (render_in_file task2_required_keys ps) ≠ [] := by
          simp [jktebop_model_rows]
        rw [parse_out_file, if_neg hnil, Except.ok.injEq] at hm
        subst hm
        constructor
        · simp [jktebop_model_rows]
        · simp
    · simp [generate_model_light_curve, h] at hm

theorem generate_ignores_unrecognized_params_witness :
    generate_model_light_curve (some "test_deblib_")
        (some (task2_sample_params ++ [("another_param_to_be_ignores", .str "anything or nothing")])) =
      generate_model_light_curve (some "test_deblib_") (some task2_sample_params) :=
  (generate_ignores_unrecognized_params task2_sample_params
    [("another_param_to_be_ignores", .str "anything or nothing")]
    "test_deblib_" (by decide)).1

/-- A result is a Python TypeError. -/
def is_type_error {α : Type} : Except PyError α → Bool
  | .error (.typeError _) => true
  | _ => false

/-- Claim C10: the file-writing operations accept only Path objects: the
task-3 control-file writer and the dat-file writer fail with a TypeError for
a None file argument and for any string file name, even a well-formed one,
and the dat-file writer likewise rejects a None or non-LightCurve light-curve
argument; in every such case the error result models that no output was
produced. -/
theorem writers_reject_non_path_file_args :
    (∀ lines ps, is_type_error (write_task3_in_file none lines ps) = true)
  ∧ (∀ s lines ps,
      is_type_error (write_task3_in_file (some (.plainStr s)) lines ps) = true)
  ∧ (∀ fn cn cf, is_type_error (write_light_curve_to_dat_file none fn cn cf) = true)
  ∧ (∀ rows cn cf,
      is_type_error (write_light_curve_to_dat_file (some (.lightcurve rows)) none cn cf) = true)
  ∧ (∀ rows s cn cf,
      is_type_error (write_light_curve_to_dat_file (some (.lightcurve rows))
        (some (.plainStr s)) cn cf) = true)
  ∧ (∀ arr p cn cf,
      is_type_error (write_light_curve_to_dat_file (some (.rawArray arr))
        (some (.path p)) cn cf) = true) := by
  refine ⟨fun _ _ => rfl, fun _ _ _ => rfl, ?_, fun _ _ _ => rfl,
    fun _ _ _ _ => rfl, fun _ _ _ _ => rfl⟩
  intro fn cn cf
  cases fn with
  | none => rfl
  | some f => cases f <;> rfl

/-- Claim C8: `create_mags_key` is a pure deterministic function of the bin
count truncated to an integer and the wrap phase rounded to three decimals:
create_mags_key(1024, 2) renders as mags_1024_2.0, create_mags_key(1024.9,
0.666) as mags_1024_0.666, and any two inputs that agree after truncation and
rounding produce the identical key. -/
theorem create_mags_key_deterministic (b1 b2 p1 p2 : ℚ)
    (hb : qtrunc b1 = qtrunc b2)
    (hp : round_scaled p1 1000 = round_scaled p2 1000) :
    create_mags_key 1024 2 = "mags_1024_2.0"
  ∧ create_mags_key (1024.9 : ℚ) (0.666 : ℚ) = "mags_1024_0.666"
  ∧ create_mags_key b1 p1 = create_mags_key b2 p2 := by
  refine ⟨by decide, ?_, ?_⟩
  · have e1 : (1024.9 : ℚ) = mkRat 10249 10 := by
      rw [Rat.mkRat_eq_div]
      norm_num
    have e2 : (0.666 : ℚ) = mkRat 666 1000 := by
      rw [Rat.mkRat_eq_div]
      norm_num
    rw [e1, e2]
    decide
  · simp [create_mags_key, fmt_round3, hb, hp]

theorem create_mags_key_deterministic_witness :
    create_mags_key (mkRat 10249 10) (mkRat 666 1000) =
      create_mags_key 1024 (mkRat 6661 10000) :=
  (create_mags_key_deterministic (mkRat 10249 10) 1024 (mkRat 666 1000)
    (mkRat 6661 10000) (by decide) (by decide)).2.2

theorem f32_round_rel_error (q : ℚ) : |f32_round q - q| ≤ |q| / 2 ^ 24 := by
  by_cases hq : q = 0
  · simp [f32_round, hq]
  · have habs : (0:ℚ) < |q| := abs_pos.mpr hq
    have h2e : (2:ℚ) ^ (Int.log 2 |q|) ≤ |q| := by
      have h := Int.zpow_log_le_self (b := 2) (R := ℚ) (by norm_num) habs
      exact_mod_cast h
    set e : ℤ := Int.log 2 |q| with he
    rw [f32_round, if_neg hq]
    have htwo : (2:ℚ) ≠ 0 := by norm_num
    have hsplit :
        ((round (q * (2:ℚ) ^ (23 - e)) : ℤ) : ℚ) * (2:ℚ) ^ (e - 23) - q =
        (((round (q * (2:ℚ) ^ (23 - e)) : ℤ) : ℚ) - q * (2:ℚ) ^ (23 - e)) *
          (2:ℚ) ^ (e - 23) := by
      rw [sub_mul, mul_assoc, ← zpow_add₀ htwo]
      norm_num
    rw [← he, hsplit, abs_mul,
      abs_of_pos (zpow_pos (by norm_num : (0:ℚ) < 2) (e - 23))]
    have h1 : |((round (q * (2:ℚ) ^ (23 - e)) : ℤ) : ℚ) - q * (2:ℚ) ^ (23 - e)| ≤
        1 / 2 := by
      rw [abs_sub_comm]
      exact abs_sub_round _
    calc |((round (q * (2:ℚ) ^ (23 - e)) : ℤ) : ℚ) - q * (2:ℚ) ^ (23 - e)| *
          (2:ℚ) ^ (e - 23)
        ≤ (1 / 2) * (2:ℚ) ^ (e - 23) :=
          mul_le_mul_of_nonneg_right h1
            (le_of_lt (zpow_pos (by norm_num : (0:ℚ) < 2) (e - 23)))
      _ = (2:ℚ) ^ (e - 24) := by
          rw [show e - 24 = (-1) + (e - 23) by ring, zpow_add₀ htwo]
          norm_num
      _ ≤ |q| / 2 ^ 24 := by
          rw [show e - 24 = e - (24:ℤ) from rfl, zpow_sub₀ htwo]
          have h24 : (2:ℚ) ^ ((24:ℤ)) = (2:ℚ) ^ (24:ℕ) := by
            norm_num
          rw [h24]
          gcongr

theorem f32_round_six_digits (q : ℚ) : |f32_round q - q| ≤ |q| / 10 ^ 6 := by
  refine le_trans (f32_round_rel_error q) ?_
  gcongr
  norm_num

/-- Claim C3: serializing an instance record and decoding it through the
default transform pipeline reproduces every requested light-curve bin, every
registered label (multiplied by its registered scale factor) and every stored
extra feature through the binary32 representation, each value to within a
relative error of one part in ten to the sixth, that is at least six
significant decimal digits. -/
theorem serialize_decode_roundtrip (id : String) (labels : List (String × ℚ))
    (lc_features : List (String × List ℚ)) (ext_features : List (String × ℚ))
    (mags_bins : ℕ) (wrap : ℚ) (bvs : List ℚ)
    (hmags : aget lc_features (create_mags_key (mags_bins : ℚ) wrap) = some bvs) :
    (create_map_func mags_bins wrap (serialize id labels lc_features ext_features)).mags
      = bvs.map f32_round
  ∧ (∀ v ∈ bvs, |f32_round v - v| ≤ |v| / 10 ^ 6)
  ∧ (create_map_func mags_bins wrap (serialize id labels lc_features ext_features)).labels
      = labels_and_scales.map (fun p => f32_round ((aget labels p.1).getD 0) * p.2)
  ∧ (∀ p ∈ labels_and_scales, ∀ v : ℚ, aget labels p.1 = some v →
      |f32_round v * p.2 - v * p.2| ≤ |v * p.2| / 10 ^ 6)
  ∧ (create_map_func mags_bins wrap (serialize id labels lc_features ext_features)).ext_features
      = extra_features_and_defaults.map
          (fun p => ((aget ext_features p.1).map f32_round).getD p.2)
  ∧ (∀ p ∈ extra_features_and_defaults, ∀ v : ℚ, aget ext_features p.1 = some v →
      |f32_round v - v| ≤ |v| / 10 ^ 6) := by
  refine ⟨?_, ?_, ?_, ?_, ?_, ?_⟩
  · simp [create_map_func, serialize, aget_map_snd, hmags]
  · intro v _
    exact f32_round_six_digits v
  · simp only [create_map_func, serialize, aget_map_snd]
    refine List.map_congr_left ?_
    intro p _
    cases ho : aget labels p.1 with
    | none => simp [f32_round]
    | some v => simp
  · intro p _ v _
    calc |f32_round v * p.2 - v * p.2| = |f32_round v - v| * |p.2| := by
          rw [← sub_mul, abs_mul]
      _ ≤ (|v| / 10 ^ 6) * |p.2| :=
          mul_le_mul_of_nonneg_right (f32_round_six_digits v) (abs_nonneg p.2)
      _ = |v * p.2| / 10 ^ 6 := by
          rw [abs_mul]
          ring
  · simp only [create_map_func, serialize, aget_map_snd]
  · intro p _ v _
    exact f32_round_six_digits v

theorem serialize_decode_roundtrip_witness :
    (create_map_func 4096 (mkRat 3 4)
        (serialize "t1" [("inc", 90)] [("mags_4096_0.75", [0, 1])]
          [("phiS", mkRat 3 5)])).mags = [(0:ℚ), 1].map f32_round :=
  (serialize_decode_roundtrip "t1" [("inc", 90)] [("mags_4096_0.75", [0, 1])]
    [("phiS", mkRat 3 5)] 4096 (mkRat 3 4) [0, 1] (by decide)).1

theorem smem_iff (s : String) (l : List String) : smem s l = true ↔ s ∈ l := by
  induction l with
  | nil => simp [smem]
  | cons t rest ih => simp [smem, ih, beq_iff_eq]

theorem smem_eq_false_of_not_mem {s : String} {l : List String} (h : s ∉ l) :
    smem s l = false := by
  cases hs : smem s l with
  | false => rfl
  | true => exact absurd ((smem_iff s l).mp hs) h

theorem filter_or_perm {α : Type} (p q : α → Bool) (l : List α)
    (hdisj : ∀ x, p x = true → q x = false) :
    List.Perm (l.filter (fun x => p x || q x)) (l.filter p ++ l.filter q) := by
  induction l with
  | nil => simp
  | cons x xs ih =>
    by_cases hp : p x = true
    · have hq : q x = false := hdisj x hp
      simpa [List.filter_cons, hp, hq] using ih.cons x
    · have hp2 : p x = false := by
        cases hpx : p x with
        | false => rfl
        | true => exact absurd hpx hp
      by_cases hq : q x = true
      · have step1 : List.Perm (x :: xs.filter (fun y => p y || q y))
            (x :: (xs.filter p ++ xs.filter q)) := ih.cons x
        have step2 : List.Perm (x :: (xs.filter p ++ xs.filter q))
            (xs.filter p ++ x :: xs.filter q) := List.perm_middle.symm
        simpa [List.filter_cons, hp2, hq] using step1.trans step2
      · have hq2 : q x = false := by
          cases hqx : q x with
          | false => rfl
          | true => exact absurd hqx hq
        simpa [List.filter_cons, hp2, hq2] using ih

theorem filter_eq_find_of_nodup (l : List Record) (i : String)
    (hnd : (l.map Record.id).Nodup) :
    l.filter (fun r => r.id == i) = (l.find? (fun r => r.id == i)).toList := by
  induction l with
  | nil => rfl
  | cons x xs ih =>
    have hnd2 : (xs.map Record.id).Nodup := by
      simpa using (List.nodup_cons.mp (by simpa using hnd)).2
    by_cases hx : x.id = i
    · have hxs : ∀ r ∈ xs, (r.id == i) = false := by
        intro r hr
        have hne : r.id ≠ i := by
          intro he
          have hxmem : x.id ∈ xs.map Record.id := by
            rw [hx, ← he]
            exact List.mem_map_of_mem _ hr
          exact (List.nodup_cons.mp (by simpa using hnd)).1 hxmem
        simp [hne]
      have hfe : xs.filter (fun r => r.id == i) = [] := by
        refine List.filter_eq_nil_iff.mpr ?_
        intro a ha
        simp [hxs a ha]
      simp [List.filter_cons, hx, hfe]
    · have hbx : (x.id == i) = false := by simp [hx]
      simp [List.filter_cons, List.find?_cons, hbx, ih hnd2]

theorem read_perm_core (l : List Record) (ids : List String)
    (hnd : (l.map Record.id).Nodup) (hids : ids.Nodup) :
    List.Perm (ids.filterMap (fun i => l.find? (fun r => r.id == i)))
      (l.filter (fun r => smem r.id ids)) := by
  induction ids with
  | nil => simp [smem]
  | cons i rest ih =>
    have hirest : i ∉ rest := (List.nodup_cons.mp hids).1
    have hdisj : ∀ r : Record, (r.id == i) = true → smem r.id rest = false := by
      intro r hr
      have he : r.id = i := by simpa [beq_iff_eq] using hr
      rw [he]
      exact smem_eq_false_of_not_mem hirest
    have hsplit := filter_or_perm (fun r => r.id == i) (fun r => smem r.id rest) l hdisj
    have hfind := filter_eq_find_of_nodup l i hnd
    have hgoal : l.filter (fun r => smem r.id (i :: rest)) =
        l.filter (fun r => (r.id == i) || smem r.id rest) := rfl
    rw [List.filterMap_cons, hgoal]
    cases hf : l.find? (fun r => r.id == i) with
    | none =>
      have h0 : l.filter (fun r => r.id == i) = [] := by
        rw [hfind, hf]
        rfl
      have h2 := hsplit
      rw [h0, List.nil_append] at h2
      exact (ih (List.Nodup.of_cons hids)).trans h2.symm
    | some r =>
      have h0 : l.filter (fun r2 => r2.id == i) = [r] := by
        rw [hfind, hf]
        rfl
      have h2 := hsplit
      rw [h0] at h2
      exact ((ih (List.Nodup.of_cons hids)).cons r).trans h2.symm

theorem find_map_fst (X : List (String × Decoded)) (i : String) :
    (X.find? (fun row => row.1 == i)).map Prod.fst =
      if X.any (fun row => row.1 == i) then some i else none := by
  cases hf : X.find? (fun row => row.1 == i) with
  | none =>
    have hall := List.find?_eq_none.mp hf
    have hany : X.any (fun row => row.1 == i) = false := by
      cases ha : X.any (fun row => row.1 == i) with
      | false => rfl
      | true =>
        obtain ⟨x, hx, hpx⟩ := List.any_eq_true.mp ha
        exact absurd hpx (hall x hx)
    simp [hany]
  | some row =>
    have hp := List.find?_some hf
    have hmem := List.mem_of_find?_eq_some hf
    have he : row.1 = i := by simpa [beq_iff_eq] using hp
    have hany : X.any (fun row => row.1 == i) = true :=
      List.any_eq_true.mpr ⟨row, hmem, hp⟩
    simp [hany, he]

theorem filterMap_if_eq_filter {α : Type} (p : α → Bool) (l : List α) :
    l.filterMap (fun a => if p a then some a else none) = l.filter p := by
  induction l with
  | nil => rfl
  | cons x xs ih =>
    by_cases hx : p x = true
    · simp [List.filterMap_cons, List.filter_cons, hx, ih]
    · have hx2 : p x = false := by
        cases hpx : p x with
        | false => rfl
        | true => exact absurd hpx hx
      simp [List.filterMap_cons, List.filter_cons, hx2, ih]

theorem find_decode (Y : List Record) (mags_bins : ℕ) (wrap : ℚ) (i : String) :
    ((Y.map (fun r => (r.id, create_map_func mags_bins wrap r))).find?
        (fun row => row.1 == i)) =
      (Y.find? (fun r => r.id == i)).map
        (fun r => (r.id, create_map_func mags_bins wrap r)) := by
  induction Y with
  | nil => rfl
  | cons x xs ih =>
    by_cases hx : (x.id == i) = true
    · simp [List.find?_cons, hx]
    · have hx2 : (x.id == i) = false := by
        cases hpx : (x.id == i) with
        | false => rfl
        | true => exact absurd hpx hx
      simp [List.find?_cons, hx2, ih]

theorem find_filter_smem (l : List Record) (ids : List String) (i : String)
    (hi : i ∈ ids) :
    (l.filter (fun r => smem r.id ids)).find? (fun r => r.id == i) =
      l.find? (fun r => r.id == i) := by
  induction l with
  | nil => rfl
  | cons x xs ih =>
    by_cases hx : x.id = i
    · have hsm : smem i ids = true := (smem_iff _ _).mpr hi
      simp [List.filter_cons, List.find?_cons, hsm, hx]
    · have hbx : (x.id == i) = false := by simp [hx]
      by_cases hsm : smem x.id ids = true
      · simp [List.filter_cons, List.find?_cons, hsm, hbx, ih]
      · have hsm2 : smem x.id ids = false := by
          cases hs : smem x.id ids with
          | false => rfl
          | true => exact absurd hs hsm
        simp [List.filter_cons, List.find?_cons, hsm2, hbx, ih]

theorem filterMap_congr_mem {α β : Type} (f g : α → Option β) (l : List α)
    (h : ∀ a ∈ l, f a = g a) : l.filterMap f = l.filterMap g := by
  induction l with
  | nil => rfl
  | cons x xs ih =>
    rw [List.filterMap_cons, List.filterMap_cons, h x (by simp),
      ih (fun a ha => h a (by simp [ha]))]

/-- Claim C2: over any dataset with distinct row identifiers and any distinct
identifier filter, `iterate_dataset` yields exactly the matching rows in
storage order (it equals the storage-order stream filtered by identifier),
while `read_dataset` returns the same rows (a permutation of the iterated
rows, and equal to them when no filter is supplied) reordered so that its
identifier sequence follows the caller-requested identifier order; the
reordering is thus the only behavioral divergence between the two. -/
theorem iterate_storage_order_read_request_order (files : List (List Record))
    (mags_bins : ℕ) (wrap : ℚ) (ids : List String)
    (hnd : ((dataset_rows files).map Record.id).Nodup)
    (hids : ids.Nodup) :
    read_dataset files mags_bins wrap none = iterate_dataset files mags_bins wrap none
  ∧ iterate_dataset files mags_bins wrap (some ids) =
      (iterate_dataset files mags_bins wrap none).filter (fun row => smem row.1 ids)
  ∧ (read_dataset files mags_bins wrap (some ids)).map Prod.fst =
      ids.filter (fun i =>
        (iterate_dataset files mags_bins wrap (some ids)).any (fun row => row.1 == i))
  ∧ List.Perm (read_dataset files mags_bins wrap (some ids))
      (iterate_dataset files mags_bins wrap (some ids)) := by
  refine ⟨rfl, ?_, ?_, ?_⟩
  · rw [show iterate_dataset files mags_bins wrap none =
        (dataset_rows files).map
          (fun r => (r.id, create_map_func mags_bins wrap r)) from by
      simp [iterate_dataset]]
    rw [List.filter_map]
    rfl
  · rw [show read_dataset files mags_bins wrap (some ids) =
        ids.filterMap (fun i =>
          (iterate_dataset files mags_bins wrap (some ids)).find?
            (fun row => row.1 == i)) from rfl]
    rw [List.map_filterMap]
    have hpt : ∀ i, Option.map Prod.fst
        ((iterate_dataset files mags_bins wrap (some ids)).find?
          (fun row => row.1 == i)) =
        if (iterate_dataset files mags_bins wrap (some ids)).any
            (fun row => row.1 == i)
        then some i else none := fun i => find_map_fst _ i
    simp only [hpt]
    exact filterMap_if_eq_filter _ _
  · have hrw : read_dataset files mags_bins wrap (some ids) =
        (ids.filterMap (fun i => (dataset_rows files).find? (fun r => r.id == i))).map
          (fun r => (r.id, create_map_func mags_bins wrap r)) := by
      rw [show read_dataset files mags_bins wrap (some ids) =
          ids.filterMap (fun i =>
            (iterate_dataset files mags_bins wrap (some ids)).find?
              (fun row => row.1 == i)) from rfl]
      rw [List.map_filterMap]
      refine filterMap_congr_mem _ _ _ ?_
      intro i hi
      rw [show iterate_dataset files mags_bins wrap (some ids) =
          ((dataset_rows files).filter (fun r => smem r.id ids)).map
            (fun r => (r.id, create_map_func mags_bins wrap r)) from rfl]
      rw [find_decode, find_filter_smem _ _ _ hi]
    rw [hrw]
    rw [show iterate_dataset files mags_bins wrap (some ids) =
        ((dataset_rows files).filter (fun r => smem r.id ids)).map
          (fun r => (r.id, create_map_func mags_bins wrap r)) from rfl]
    exact (read_perm_core (dataset_rows files) ids hnd hids).map _

/-- A two-shard dataset fixture mirroring the formal test dataset: the row
with identifier CW Eri is stored before the row with identifier CM Dra. -/
def cw_eri_record : Record :=
  ⟨"CW Eri", [("inc", mkRat 86381 1000), ("L3", -(mkRat 2 10000))], [], []⟩

/-- The second fixture row, stored after the CW Eri row. -/
def cm_dra_record : Record :=
  ⟨"CM Dra", [("inc", mkRat 895514 10000), ("L3", 0)], [], []⟩

/-- The fixture shard files in file-list order. -/
def formal_test_files : List (List Record) := [[cw_eri_record], [cm_dra_record]]

theorem iterate_storage_order_read_request_order_witness :
    (read_dataset formal_test_files 4096 (mkRat 3 4)
        (some ["CM Dra", "CW Eri"])).map Prod.fst =
      ["CM Dra", "CW Eri"].filter (fun i =>
        (iterate_dataset formal_test_files 4096 (mkRat 3 4)
          (some ["CM Dra", "CW Eri"])).any (fun row => row.1 == i))
  ∧ List.Perm
      (read_dataset formal_test_files 4096 (mkRat 3 4) (some ["CM Dra", "CW Eri"]))
      (iterate_dataset formal_test_files 4096 (mkRat 3 4) (some ["CM Dra", "CW Eri"])) :=
  have h := iterate_storage_order_read_request_order formal_test_files 4096
    (mkRat 3 4) ["CM Dra", "CW Eri"] (by decide) (by decide)
  ⟨h.2.2.1, h.2.2.2⟩

end EbopMaven
